import Mathlib

/-!
Verification of the aoscdk-rs installer core against its specification.

The definitions below are a shallow embedding of the Rust sources
`src/disks.rs` and `src/install.rs`: pure Rust functions become Lean
functions; effectful mount/chroot helpers become functions from an
explicit environment (which records the ambient facts the code queries,
such as whether the machine is EFI-booted, and whether each system call
succeeds) to a trace of attempted actions, with `Except` for fallible
code.  Floating-point arithmetic in the swap-sizing heuristic is modelled
exactly over `ℚ`; `round` is Rust's `f64::round` (half away from zero,
which agrees with Mathlib's `round` on the nonnegative values that occur
here).  Machine integers are modelled as `Nat`.
-/

namespace Aoscdk

/-- Partition record, from `src/disks.rs` (`pub struct Partition`).
Paths are modelled as strings. -/
structure Partition where
  path : Option String
  parent_path : Option String
  fs_type : Option String
  size : Nat
deriving Repr, DecidableEq

/-- `ALLOWED_FS_TYPE` from `src/disks.rs`. -/
def ALLOWED_FS_TYPE : List String := ["ext4", "xfs", "btrfs", "f2fs"]

/-- `DEFAULT_FS_TYPE` from `src/disks.rs`. -/
def DEFAULT_FS_TYPE : String := "ext4"

/-- `get_recommended_fs_type` from `src/disks.rs`: scan `ALLOWED_FS_TYPE`
for the requested type and return it when found, else the default. -/
def get_recommended_fs_type (type_ : String) : String :=
  match ALLOWED_FS_TYPE.find? (fun i => i == type_) with
  | some i => i
  | none => DEFAULT_FS_TYPE

/-- `fill_fs_type` from `src/disks.rs`: a copy of the partition with the
filesystem type normalized (`use_ext4` forces the default). -/
def fill_fs_type (part : Partition) (use_ext4 : Bool) : Partition :=
  let new_fs_type : String :=
    match part.fs_type with
    | some fs_type =>
        if !use_ext4 then get_recommended_fs_type fs_type else DEFAULT_FS_TYPE
    | none => DEFAULT_FS_TYPE
  { part with fs_type := some new_fs_type }

/-- `right_combine` from `src/disks.rs` (the non-powerpc64 version),
with the probed partition-table kind and the `is_efi_booted()` result
passed explicitly. -/
def right_combine (partition_table_t : String) (efi : Bool) : Except String Unit :=
  let bios_efi_s := if efi then "EFI" else "BIOS"
  let right := if efi then "GPT" else "BIOS"
  if (partition_table_t == "gpt" && efi) || (partition_table_t == "msdos" && !efi) then
    Except.ok ()
  else
    Except.error ("Installer detected an unsupported partition map for your device (" ++
      partition_table_t ++ " partition map on a " ++ bios_efi_s ++
      "-based device). Please use a " ++ right ++ " partition map for your " ++
      bios_efi_s ++ "-based device.")

/-- The error message `right_combine` produces for a GPT table on a
BIOS-booted machine. -/
def bios_mismatch_msg : String :=
  "Installer detected an unsupported partition map for your device (gpt partition map on a BIOS-based device). Please use a BIOS partition map for your BIOS-based device."

/-- Does `pat` match a prefix of `s`? (helper for substring search). -/
def prefMatch : List Char → List Char → Bool
  | [], _ => true
  | _ :: _, [] => false
  | p :: ps, c :: cs => p == c && prefMatch ps cs

/-- Does `pat` occur inside `s` as a contiguous run? -/
def hasSub (s pat : List Char) : Bool :=
  match s with
  | [] => prefMatch pat []
  | _ :: rest => prefMatch pat s || hasSub rest pat

/-- Substring containment on strings. -/
def strContains (s pat : String) : Bool := hasSub s.data pat.data

/-- C6: `get_recommended_fs_type` returns the requested kind unchanged when
it is one of ext4, xfs, btrfs, f2fs, and returns the default ext4 for any
other string; in particular btrfs maps to btrfs and ext2 maps to ext4.
It is a total function, hence pure and never failing. -/
theorem get_recommended_fs_type_spec :
    ∀ type_ : String,
      (get_recommended_fs_type type_ =
        if type_ = "ext4" ∨ type_ = "xfs" ∨ type_ = "btrfs" ∨ type_ = "f2fs"
        then type_ else "ext4") ∧
      get_recommended_fs_type "btrfs" = "btrfs" ∧
      get_recommended_fs_type "ext2" = "ext4" := by
  intro t
  refine ⟨?_, by decide, by decide⟩
  by_cases h1 : t = "ext4"
  · subst h1; decide
  by_cases h2 : t = "xfs"
  · subst h2; decide
  by_cases h3 : t = "btrfs"
  · subst h3; decide
  by_cases h4 : t = "f2fs"
  · subst h4; decide
  have e1 : ("ext4" == t) = false := by simp [Ne.symm h1]
  have e2 : ("xfs" == t) = false := by simp [Ne.symm h2]
  have e3 : ("btrfs" == t) = false := by simp [Ne.symm h3]
  have e4 : ("f2fs" == t) = false := by simp [Ne.symm h4]
  simp [get_recommended_fs_type, ALLOWED_FS_TYPE, DEFAULT_FS_TYPE, List.find?,
    e1, e2, e3, e4, h1, h2, h3, h4]

/-- C7: `fill_fs_type` is a pure function: it leaves its argument untouched
and returns a new partition with the same device path, parent device path
and size, whose filesystem kind is `some` of: the default ext4 when the
input has no filesystem kind or when the force-default flag is set, else
the recommendation function applied to the current kind. -/
theorem fill_fs_type_spec :
    ∀ (part : Partition) (use_ext4 : Bool),
      (fill_fs_type part use_ext4).path = part.path ∧
      (fill_fs_type part use_ext4).parent_path = part.parent_path ∧
      (fill_fs_type part use_ext4).size = part.size ∧
      (fill_fs_type part use_ext4).fs_type = some
        (match part.fs_type with
         | none => "ext4"
         | some k => if use_ext4 then "ext4" else get_recommended_fs_type k) := by
  intro part use_ext4
  cases h : part.fs_type <;> cases use_ext4 <;>
    simp [fill_fs_type, DEFAULT_FS_TYPE, h]

/-- C5 (amended): `right_combine` succeeds exactly for the combinations
(GPT table, EFI-booted) and (MBR table, BIOS-booted); on the mismatched
combination (MBR, EFI) the error names the detected table, the firmware
mode, and GPT as the required table, while on (GPT, BIOS) the error names
the detected table and the firmware mode but says "BIOS partition map"
instead of naming MBR as the table to switch to. -/
theorem right_combine_spec :
    ∀ (partition_table_t : String) (efi : Bool),
      (right_combine partition_table_t efi = Except.ok () ↔
        ((partition_table_t = "gpt" ∧ efi = true) ∨
         (partition_table_t = "msdos" ∧ efi = false))) ∧
      right_combine "msdos" true = Except.error
        "Installer detected an unsupported partition map for your device (msdos partition map on a EFI-based device). Please use a GPT partition map for your EFI-based device." ∧
      right_combine "gpt" false = Except.error bios_mismatch_msg := by
  intro t efi
  refine ⟨?_, by rfl, by rfl⟩
  cases efi <;>
  · by_cases hg : t = "gpt" <;> by_cases hm : t = "msdos" <;>
      simp_all [right_combine]

/-- C5 (counterexample): for a GPT-partitioned device on a BIOS-booted
machine, `right_combine` fails as the claim says, but the error message
nowhere names the table the user must switch to (neither "MBR" nor
"msdos" occurs in it); it says "BIOS partition map" instead. -/
theorem right_combine_counterexample :
    right_combine "gpt" false = Except.error bios_mismatch_msg ∧
    strContains bios_mismatch_msg "MBR" = false ∧
    strContains bios_mismatch_msg "msdos" = false ∧
    strContains bios_mismatch_msg "BIOS partition map" = true := by
  refine ⟨by rfl, by decide, by decide, by decide⟩

/-! ## Swap sizing (`src/disks.rs`) -/

/-- The first piece of the swap heuristic (memory at most 5 GiB). -/
def swap_formula_small (men : ℚ) : ℚ := 13/10 * men + 7/10

/-- The middle piece of the swap heuristic (between 5 and 32 GiB). -/
def swap_formula_mid (men : ℚ) : ℚ := 11543/10000 * men + 136328/100000

/-- The last piece of the swap heuristic (above 32 GiB). -/
def swap_formula_large (men : ℚ) : ℚ := 1009945/1000000 * men + 16087529/1000000

/-- `get_recommand_swap_size` from `src/disks.rs`, with the probed memory
amount (in whole GiB, as the source computes it) passed explicitly: the
piecewise-linear heuristic, rounded to the nearest GiB and converted to
bytes.  The source's `f64` arithmetic is modelled exactly over `ℚ`;
`round` agrees with `f64::round` on these nonnegative values. -/
def get_recommand_swap_size (men : ℚ) : ℚ :=
  (round (if men ≤ 5 then swap_formula_small men
          else if 5 < men ∧ men ≤ 32 then swap_formula_mid men
          else swap_formula_large men) : ℚ) * 1024 * 1024 * 1024

/-- The source obtains the memory size in GiB as
`total_memory() / 1024 / 1024 / 1024` (integer division of bytes). -/
def mem_gib (total_memory : Nat) : Nat := total_memory / 1024 / 1024 / 1024

/-- `get_recommand_swap_size` as a function of the total memory in bytes. -/
def get_recommand_swap_size_bytes (total_memory : Nat) : ℚ :=
  get_recommand_swap_size (mem_gib total_memory)

/-- Is an `Except` result an error? -/
def exceptHasError {α : Type} : Except String α → Bool
  | Except.error _ => true
  | Except.ok _ => false

/-- `is_enable_hibernation` from `src/disks.rs`, with the probed total
memory (bytes) passed explicitly. -/
def is_enable_hibernation (total_memory : Nat) (custom_size : ℚ) : Except String Bool :=
  let men : ℚ := (total_memory : ℚ)
  let recommand_size := get_recommand_swap_size_bytes total_memory
  let no_hibernation_size := recommand_size - men
  if custom_size ≥ no_hibernation_size ∧ custom_size < recommand_size then
    Except.ok false
  else if custom_size ≥ recommand_size then
    Except.ok true
  else
    Except.error ("The specified swapfile size is too small, AOSC OS recommends at least " ++
      toString (round (recommand_size / 1024 / 1024 / 1024)) ++ " GiB for your device.")

/-- C3 (amended): the recommended-swap-size function is the stated
piecewise-linear heuristic rounded to the nearest GiB and converted to
bytes; in GiB-rounded terms it is continuous at the boundary m=5 (both
pieces round to 7 GiB there), but at m=32 it is discontinuous beyond
rounding: the middle piece rounds to 38 GiB at the boundary while the
upper piece rounds to 48 GiB, and the recommendation jumps by 11 GiB
between 32 GiB and 33 GiB of memory. -/
theorem get_recommand_swap_size_spec :
    (∀ men : ℚ, men ≤ 5 →
      get_recommand_swap_size men = (round (13/10 * men + 7/10) : ℚ) * 1024 * 1024 * 1024) ∧
    (∀ men : ℚ, 5 < men → men ≤ 32 →
      get_recommand_swap_size men =
        (round (11543/10000 * men + 136328/100000) : ℚ) * 1024 * 1024 * 1024) ∧
    (∀ men : ℚ, 32 < men →
      get_recommand_swap_size men =
        (round (1009945/1000000 * men + 16087529/1000000) : ℚ) * 1024 * 1024 * 1024) ∧
    (round (swap_formula_small 5) = 7 ∧ round (swap_formula_mid 5) = 7) ∧
    (round (swap_formula_mid 32) = 38 ∧ round (swap_formula_large 32) = 48) ∧
    get_recommand_swap_size 33 - get_recommand_swap_size 32 =
      11 * (1024 * 1024 * 1024) := by
  refine ⟨?_, ?_, ?_, ⟨?_, ?_⟩, ⟨?_, ?_⟩, ?_⟩
  · intro men h
    rw [get_recommand_swap_size, swap_formula_small, if_pos h]
  · intro men h5 h32
    rw [get_recommand_swap_size, swap_formula_mid, if_neg (by linarith),
      if_pos ⟨h5, h32⟩]
  · intro men h
    rw [get_recommand_swap_size, swap_formula_large, if_neg (by linarith),
      if_neg (by rintro ⟨-, h32⟩; linarith)]
  · norm_num [swap_formula_small, round_eq]
  · norm_num [swap_formula_mid, round_eq]
  · norm_num [swap_formula_mid, round_eq]
  · norm_num [swap_formula_large, round_eq]
  · norm_num [get_recommand_swap_size, swap_formula_mid, swap_formula_large, round_eq]

/-- C3 (counterexample): at the m=32 boundary the heuristic is not
continuous in GiB-rounded terms: the piece for memory at most 32 GiB
rounds to 38 GiB there while the piece for memory above 32 GiB rounds to
48 GiB, and the recommended size computed by the code jumps from 38 GiB
at 32 GiB of memory to 49 GiB at 33 GiB of memory — a discontinuity far
beyond rounding. -/
theorem get_recommand_swap_size_counterexample :
    round (swap_formula_mid 32) = 38 ∧
    round (swap_formula_large 32) = 48 ∧
    get_recommand_swap_size 32 = 38 * (1024 * 1024 * 1024) ∧
    get_recommand_swap_size 33 = 49 * (1024 * 1024 * 1024) := by
  refine ⟨?_, ?_, ?_, ?_⟩
  · norm_num [swap_formula_mid, round_eq]
  · norm_num [swap_formula_large, round_eq]
  · norm_num [get_recommand_swap_size, swap_formula_mid, round_eq]
  · norm_num [get_recommand_swap_size, swap_formula_large, round_eq]

/-- C4: `is_enable_hibernation` with `recommended` the recommended swap
size for the machine's memory and `floor = recommended - total_memory`
returns `false` when `floor ≤ candidate < recommended`, returns `true`
when `candidate ≥ recommended`, and fails exactly when
`candidate < floor`, with the too-small error carrying the recommended
size rounded to GiB. -/
theorem is_enable_hibernation_spec :
    ∀ (total_memory : Nat) (custom_size : ℚ),
      ((get_recommand_swap_size_bytes total_memory - (total_memory : ℚ) ≤ custom_size ∧
        custom_size < get_recommand_swap_size_bytes total_memory) →
          is_enable_hibernation total_memory custom_size = Except.ok false) ∧
      (get_recommand_swap_size_bytes total_memory ≤ custom_size →
          is_enable_hibernation total_memory custom_size = Except.ok true) ∧
      (exceptHasError (is_enable_hibernation total_memory custom_size) = true ↔
        custom_size < get_recommand_swap_size_bytes total_memory - (total_memory : ℚ)) ∧
      (custom_size < get_recommand_swap_size_bytes total_memory - (total_memory : ℚ) →
        is_enable_hibernation total_memory custom_size = Except.error
          ("The specified swapfile size is too small, AOSC OS recommends at least " ++
            toString (round (get_recommand_swap_size_bytes total_memory / 1024 / 1024 / 1024)) ++
            " GiB for your device.")) := by
  intro total_memory custom_size
  have hmem : (0 : ℚ) ≤ (total_memory : ℚ) := by positivity
  refine ⟨?_, ?_, ?_, ?_⟩
  · intro h
    rw [is_enable_hibernation, if_pos ⟨h.1, h.2⟩]
  · intro h
    rw [is_enable_hibernation, if_neg (by rintro ⟨-, hlt⟩; linarith), if_pos h]
  · constructor
    · intro herr
      by_contra hge
      push_neg at hge
      rw [is_enable_hibernation] at herr
      by_cases h1 : custom_size ≥ get_recommand_swap_size_bytes total_memory -
          (total_memory : ℚ) ∧ custom_size < get_recommand_swap_size_bytes total_memory
      · rw [if_pos h1] at herr; exact absurd herr (by simp [exceptHasError])
      · have h2 : custom_size ≥ get_recommand_swap_size_bytes total_memory := by
          rcases not_and_or.mp h1 with hx | hx
          · exact absurd hge (by push_neg at hx ⊢; linarith)
          · push_neg at hx; exact hx
        rw [if_neg h1, if_pos h2] at herr
        exact absurd herr (by simp [exceptHasError])
    · intro hlt
      rw [is_enable_hibernation, if_neg (by rintro ⟨hge, -⟩; linarith),
        if_neg (by intro hge; exact absurd hge (by push_neg; linarith))]
      simp [exceptHasError]
  · intro hlt
    rw [is_enable_hibernation, if_neg (by rintro ⟨hge, -⟩; linarith),
      if_neg (by intro hge; exact absurd hge (by push_neg; linarith))]

/-- Concrete evaluation: on an 8-GiB machine the recommendation is 11 GiB,
so at a candidate of 11 GiB hibernation is feasible, at 4 GiB it is not
(but no error), and at 1 GiB the too-small error is raised. -/
theorem is_enable_hibernation_witness :
    is_enable_hibernation 8589934592 11811160064 = Except.ok true ∧
    is_enable_hibernation 8589934592 4294967296 = Except.ok false ∧
    exceptHasError (is_enable_hibernation 8589934592 1073741824) = true := by
  have hrec : get_recommand_swap_size_bytes 8589934592 = 11811160064 := by
    norm_num [get_recommand_swap_size_bytes, get_recommand_swap_size, mem_gib,
      swap_formula_mid, round_eq]
  refine ⟨?_, ?_, ?_⟩
  · exact (is_enable_hibernation_spec 8589934592 11811160064).2.1 (by rw [hrec])
  · exact (is_enable_hibernation_spec 8589934592 4294967296).1
      (by rw [hrec]; norm_num)
  · exact ((is_enable_hibernation_spec 8589934592 1073741824).2.2.1).mpr
      (by rw [hrec]; norm_num)

/-! ## Fstab entry generation (`src/disks.rs`) -/

/-- The canonical fstab filesystem types (`disk_types::FileSystem`
values the source maps to). -/
inductive FileSystem where
  | Fat32
  | Ext4
  | Btrfs
  | Xfs
  | F2fs
  | Swap
deriving Repr, DecidableEq

/-- The filesystem-kind match of `fstab_entries` in `src/disks.rs`:
canonical fstab type and mount-option string, `none` for an
unrecognized kind. -/
def fs_option_map (fs_type : String) : Option (FileSystem × String) :=
  if fs_type == "vfat" || fs_type == "fat16" || fs_type == "fat32" then
    some (FileSystem.Fat32, "defaults")
  else if fs_type == "ext4" then some (FileSystem.Ext4, "defaults")
  else if fs_type == "btrfs" then some (FileSystem.Btrfs, "defaults")
  else if fs_type == "xfs" then some (FileSystem.Xfs, "defaults")
  else if fs_type == "f2fs" then some (FileSystem.F2fs, "defaults")
  else if fs_type == "swap" then some (FileSystem.Swap, "sw")
  else none

/-- The data `BlockInfo::new` receives and `write_entry` renders: the
resolved partition id, the canonical filesystem type, the mount point
and the option string. -/
structure FstabEntry where
  root_id : String
  fs : FileSystem
  mount_path : Option String
  options : String
deriving Repr, DecidableEq

/-- `fstab_entries` from `src/disks.rs`.  `get_partition_id` stands for
`BlockInfo::get_partition_id` of the external `fstab_generate` crate
(UUID resolution), passed as an oracle. -/
def fstab_entries (get_partition_id : String → FileSystem → Option String)
    (device_path : Option String) (fs_type : String) (mount_path : Option String) :
    Except String FstabEntry :=
  match device_path with
  | none => Except.error
      "Installer could not detect the corresponding device file for the specified partition!"
  | some target =>
    match fs_option_map fs_type with
    | none => Except.error "Unsupported filesystem type!"
    | some (fs, option) =>
      match get_partition_id target fs with
      | none => Except.error
          ("Installer could not obtain partition UUID for " ++ target ++ "!")
      | some root_id =>
        Except.ok { root_id := root_id, fs := fs, mount_path := mount_path,
                    options := option }

/-- C8: `fstab_entries` maps the filesystem kind to a canonical fstab type
with mount-option string "sw" for swap and "defaults" for every other
recognized kind; any kind outside the set
vfat/fat16/fat32/ext4/btrfs/xfs/f2fs/swap fails with the
unsupported-filesystem error, and a recognized kind whose device UUID
cannot be obtained fails with the no-UUID error naming the device. -/
theorem fstab_entries_spec :
    ∀ (get_partition_id : String → FileSystem → Option String) (target : String)
      (fs_type : String) (mount_path : Option String),
      (fs_option_map fs_type = none ↔
        ¬ fs_type ∈ (["vfat", "fat16", "fat32", "ext4", "btrfs", "xfs", "f2fs",
          "swap"] : List String)) ∧
      (fs_option_map fs_type = none →
        fstab_entries get_partition_id (some target) fs_type mount_path =
          Except.error "Unsupported filesystem type!") ∧
      (∀ cfs opt, fs_option_map fs_type = some (cfs, opt) →
        (opt = if fs_type = "swap" then "sw" else "defaults") ∧
        (get_partition_id target cfs = none →
          fstab_entries get_partition_id (some target) fs_type mount_path =
            Except.error ("Installer could not obtain partition UUID for " ++
              target ++ "!")) ∧
        (∀ uuid, get_partition_id target cfs = some uuid →
          fstab_entries get_partition_id (some target) fs_type mount_path =
            Except.ok { root_id := uuid, fs := cfs, mount_path := mount_path,
                        options := opt })) := by
  intro lookup target fs_type mount_path
  refine ⟨?_, ?_, ?_⟩
  · unfold fs_option_map
    split_ifs with h1 h2 h3 h4 h5 h6 <;> simp_all <;> tauto
  · intro h
    rw [fstab_entries, h]
  · intro cfs opt h
    refine ⟨?_, ?_, ?_⟩
    · unfold fs_option_map at h
      split_ifs at h with h1 h2 h3 h4 h5 h6
      · have hne : ¬ fs_type = "swap" := by
          simp only [Bool.or_eq_true, beq_iff_eq] at h1
          rcases h1 with (rfl | rfl) | rfl <;> decide
        simp only [Option.some.injEq, Prod.mk.injEq] at h
        rw [if_neg hne]; exact h.2.symm
      · have he : fs_type = "ext4" := by simpa using h2
        subst he
        simp only [Option.some.injEq, Prod.mk.injEq] at h
        rw [if_neg (by decide)]; exact h.2.symm
      · have he : fs_type = "btrfs" := by simpa using h3
        subst he
        simp only [Option.some.injEq, Prod.mk.injEq] at h
        rw [if_neg (by decide)]; exact h.2.symm
      · have he : fs_type = "xfs" := by simpa using h4
        subst he
        simp only [Option.some.injEq, Prod.mk.injEq] at h
        rw [if_neg (by decide)]; exact h.2.symm
      · have he : fs_type = "f2fs" := by simpa using h5
        subst he
        simp only [Option.some.injEq, Prod.mk.injEq] at h
        rw [if_neg (by decide)]; exact h.2.symm
      · have he : fs_type = "swap" := by simpa using h6
        subst he
        simp only [Option.some.injEq, Prod.mk.injEq] at h
        rw [if_pos rfl]; exact h.2.symm
    · intro hid
      simp only [fstab_entries, h, hid]
    · intro uuid hid
      simp only [fstab_entries, h, hid]

/-! ## Mount & chroot resource manager (`src/install.rs`)

Each effectful helper is modelled as a function from an environment —
recording whether the machine is EFI-booted and whether each underlying
system call or external command succeeds — to the list of actions it
attempts, paired with the `Except` result the Rust function returns.
Each helper of the source is one atomic attempt here; its internal
syscall sequence is abstracted into the environment's success flag. -/

/-- An attempted effect of the mount/chroot manager. -/
inductive Action where
  | escapeChrootA (root_fd : Int)
  | mkdirA (path : String)
  | bindMountA (source : String) (target : String)
  | umountA (path : String)
  | swapoffA (path : String)
deriving Repr, DecidableEq

/-- The ambient state the mount/chroot helpers consult: the EFI probe and
the success of each attempted effect. -/
structure Env where
  is_efi_booted : Bool
  escape_ok : Int → Bool
  mkdir_ok : String → Bool
  bind_ok : String → Bool
  umount_ok : String → Bool
  swapoff_ok : String → Bool

/-- `PathBuf::push` of a relative component, for the string model of paths. -/
def path_join (root rel : String) : String := root ++ "/" ++ rel

/-- `escape_chroot` from `src/install.rs`: hop to the pre-chroot anchor
file descriptor, re-chroot and reset the working directory. -/
def escape_chroot (env : Env) (root_fd : Int) : List Action × Except String Unit :=
  ([Action.escapeChrootA root_fd],
   if env.escape_ok root_fd then Except.ok () else Except.error "escape failed")

/-- `umount_root_path` from `src/install.rs`: detached unmount of `root`
followed by a sync. -/
def umount_root_path (env : Env) (root : String) : List Action × Except String Unit :=
  ([Action.umountA root],
   if env.umount_ok root then Except.ok () else Except.error "umount failed")

/-- `swapoff` from `src/install.rs`: run `swapoff` on `tempdir/swapfile`
(the command's exit status is not checked; only a spawn failure errors). -/
def swapoff (env : Env) (tempdir : String) : List Action × Except String Unit :=
  ([Action.swapoffA (path_join tempdir "swapfile")],
   if env.swapoff_ok tempdir then Except.ok () else Except.error "swapoff failed")

/-- Rust's `.ok()` on a `Result`, as used by `umount_all`: keep the
attempted actions, discard success or failure. -/
def okDiscard (r : List Action × Except String Unit) : List Action := r.1

/-- `umount_all` from `src/install.rs`: escape the chroot, unmount the
EFI sub-mount when the machine is EFI-booted, disable the swap file,
unmount the root mount — every step via `.ok()`, and the function
returns `()` (here: a plain action list, no `Except`) unconditionally. -/
def umount_all (env : Env) (mount_path : String) (root_fd : Int) : List Action :=
  okDiscard (escape_chroot env root_fd) ++
  (if env.is_efi_booted then
    okDiscard (umount_root_path env (path_join mount_path "efi"))
  else []) ++
  okDiscard (swapoff env mount_path) ++
  okDiscard (umount_root_path env mount_path)

/-- `BIND_MOUNTS` from `src/install.rs`. -/
def BIND_MOUNTS : List String := ["/dev", "/proc", "/sys", "/run/udev"]

/-- `setup_bind_mounts` from `src/install.rs`: for each entry of
`BIND_MOUNTS`, create the corresponding directory under `root` and bind
mount the host path onto it; any failure is propagated (`?`). -/
def setup_bind_mounts (env : Env) (root : String) : Except String (List Action) :=
  BIND_MOUNTS.foldlM (fun acc mnt =>
    let target := path_join root (String.drop mnt 1)
    if env.mkdir_ok target then
      if env.bind_ok target then
        Except.ok (acc ++ [Action.mkdirA target, Action.bindMountA mnt target])
      else Except.error "bind mount failed"
    else Except.error "create_dir_all failed") []

/-- An environment in which the EFI probe answers true and every
attempted effect succeeds. -/
def env_all_ok : Env where
  is_efi_booted := true
  escape_ok := fun _ => true
  mkdir_ok := fun _ => true
  bind_ok := fun _ => true
  umount_ok := fun _ => true
  swapoff_ok := fun _ => true

/-- The sources of the bind-mount actions of a trace. -/
def bind_srcs : List Action → List String
  | [] => []
  | Action.bindMountA src _ :: rest => src :: bind_srcs rest
  | _ :: rest => bind_srcs rest

/-- C1: for every environment (whatever the EFI probe answers and
whichever sub-steps fail), every mount path and every escape anchor,
`umount_all` attempts, in order: the chroot escape, the unmount of the
boot/EFI sub-mount when the machine is EFI-booted, the swap-file
disable, and the unmount of the root mount; the attempted sequence is
independent of which sub-steps fail, and the function returns a plain
action list — it can propagate no error. -/
theorem umount_all_spec :
    ∀ (env : Env) (mount_path : String) (root_fd : Int),
      umount_all env mount_path root_fd =
        [Action.escapeChrootA root_fd] ++
        (if env.is_efi_booted then [Action.umountA (path_join mount_path "efi")]
         else []) ++
        [Action.swapoffA (path_join mount_path "swapfile"),
         Action.umountA mount_path] := by
  intro env mount_path root_fd
  cases h : env.is_efi_booted <;>
    simp [umount_all, okDiscard, escape_chroot, umount_root_path, swapoff, h]

/-- C2 (amended): for every root path, when every directory creation and
bind mount succeeds, `setup_bind_mounts` creates the directory under
`root` and bind-mounts the host path onto it for exactly the four
pseudo-filesystem paths /dev, /proc, /sys and /run/udev, in that order;
it consults nothing else — in particular it never mounts the EFI
variable store, whether or not the machine is EFI-booted. -/
theorem setup_bind_mounts_spec :
    ∀ (env : Env) (root : String),
      (∀ t, env.mkdir_ok t = true) → (∀ t, env.bind_ok t = true) →
      setup_bind_mounts env root = Except.ok
        [Action.mkdirA (path_join root "dev"),
         Action.bindMountA "/dev" (path_join root "dev"),
         Action.mkdirA (path_join root "proc"),
         Action.bindMountA "/proc" (path_join root "proc"),
         Action.mkdirA (path_join root "sys"),
         Action.bindMountA "/sys" (path_join root "sys"),
         Action.mkdirA (path_join root "run/udev"),
         Action.bindMountA "/run/udev" (path_join root "run/udev")] := by
  intro env root hmk hbind
  simp [setup_bind_mounts, BIND_MOUNTS, hmk, hbind, List.foldlM]
  rfl

/-- C2 (witness): the all-success trace at the concrete root "/mnt". -/
theorem setup_bind_mounts_witness :
    setup_bind_mounts env_all_ok "/mnt" = Except.ok
      [Action.mkdirA "/mnt/dev", Action.bindMountA "/dev" "/mnt/dev",
       Action.mkdirA "/mnt/proc", Action.bindMountA "/proc" "/mnt/proc",
       Action.mkdirA "/mnt/sys", Action.bindMountA "/sys" "/mnt/sys",
       Action.mkdirA "/mnt/run/udev",
       Action.bindMountA "/run/udev" "/mnt/run/udev"] :=
  setup_bind_mounts_spec env_all_ok "/mnt" (fun _ => rfl) (fun _ => rfl)

/-- C2 (counterexample): in an environment whose EFI probe answers true
and where every effect succeeds, the bind mounts `setup_bind_mounts`
performs are exactly the four pseudo-filesystem paths — no additional
bind mount of the EFI variable store exists (no source path of the
trace even mentions "efi"). -/
theorem setup_bind_mounts_counterexample :
    env_all_ok.is_efi_booted = true ∧
    setup_bind_mounts env_all_ok "/mnt" = Except.ok
      [Action.mkdirA "/mnt/dev", Action.bindMountA "/dev" "/mnt/dev",
       Action.mkdirA "/mnt/proc", Action.bindMountA "/proc" "/mnt/proc",
       Action.mkdirA "/mnt/sys", Action.bindMountA "/sys" "/mnt/sys",
       Action.mkdirA "/mnt/run/udev",
       Action.bindMountA "/run/udev" "/mnt/run/udev"] ∧
    bind_srcs
      [Action.mkdirA "/mnt/dev", Action.bindMountA "/dev" "/mnt/dev",
       Action.mkdirA "/mnt/proc", Action.bindMountA "/proc" "/mnt/proc",
       Action.mkdirA "/mnt/sys", Action.bindMountA "/sys" "/mnt/sys",
       Action.mkdirA "/mnt/run/udev",
       Action.bindMountA "/run/udev" "/mnt/run/udev"] =
      ["/dev", "/proc", "/sys", "/run/udev"] ∧
    (["/dev", "/proc", "/sys", "/run/udev"] : List String).all
      (fun s => !(strContains s "efi")) = true := by
  refine ⟨rfl, ?_, by decide, by decide⟩
  rfl

/-! ## Username validation (`src/install.rs`)

`is_acceptable_username` iterates over the UTF-8 bytes of the name
(`username.as_bytes()`), so the embedding works on the byte list of the
name; bytes are modelled as `Nat`. -/

/-- Rust `u8::is_ascii_whitespace`: space, tab, newline, form feed,
carriage return. -/
def u_is_ascii_whitespace (c : Nat) : Bool :=
  c == 32 || c == 9 || c == 10 || c == 12 || c == 13

/-- Rust `u8::is_ascii_lowercase`: the bytes of a–z. -/
def u_is_ascii_lowercase (c : Nat) : Bool := decide (97 ≤ c ∧ c ≤ 122)

/-- Rust `u8::to_ascii_lowercase`: map A–Z to a–z, leave the rest. -/
def to_ascii_lowercase (c : Nat) : Nat :=
  if 65 ≤ c ∧ c ≤ 90 then c + 32 else c

/-- `is_acceptable_username` from `src/install.rs`, on the byte list of
the name: reject the empty name, a leading dash, the exact name "root"
(bytes 114,111,111,116), and any byte which is ASCII whitespace, not an
ASCII lowercase letter, or one of '/', '\', ':'. -/
def is_acceptable_username (bs : List Nat) : Bool :=
  if bs.isEmpty || bs.headD 0 == 45 then false
  else if bs == [114, 111, 111, 116] then false
  else bs.all fun c =>
    !(u_is_ascii_whitespace c || !u_is_ascii_lowercase c ||
      c == 47 || c == 92 || c == 58)

/-- The acceptance condition of `is_acceptable_username`, spelled out. -/
theorem username_accept_iff (bs : List Nat) :
    is_acceptable_username bs = true ↔
      bs ≠ [] ∧ bs ≠ [114, 111, 111, 116] ∧ ∀ c ∈ bs, 97 ≤ c ∧ c ≤ 122 := by
  unfold is_acceptable_username
  constructor
  · intro h
    split_ifs at h with h1 h2
    case _ =>
      simp only [Bool.or_eq_true, not_or, beq_iff_eq] at h1 h2
      refine ⟨?_, ?_, ?_⟩
      · intro hnil
        exact absurd (by simp [hnil]) h1.1
      · intro hroot
        exact h2 (by simp [hroot])
      · intro c hc
        have hp := List.all_eq_true.mp h c hc
        simp only [u_is_ascii_whitespace, u_is_ascii_lowercase, Bool.not_eq_true',
          Bool.or_eq_false_iff, Bool.not_eq_false', decide_eq_true_eq,
          beq_eq_false_iff_ne, ne_eq] at hp
        exact hp.1.1.1.2
  · rintro ⟨hne, hnroot, hall⟩
    have hc1 : ¬ (bs.isEmpty || bs.headD 0 == 45) = true := by
      cases bs with
      | nil => exact absurd rfl hne
      | cons a t =>
        have ha := hall a (by simp)
        simp only [List.isEmpty_cons, Bool.false_or, List.headD_cons,
          beq_iff_eq]
        omega
    have hc2 : ¬ (bs == [114, 111, 111, 116]) = true := by
      simpa [beq_iff_eq] using hnroot
    rw [if_neg hc1, if_neg hc2, List.all_eq_true]
    intro c hc
    have := hall c hc
    simp only [u_is_ascii_whitespace, u_is_ascii_lowercase, Bool.not_eq_true',
      Bool.or_eq_false_iff, Bool.not_eq_false', decide_eq_true_eq,
      beq_eq_false_iff_ne, ne_eq]
    refine ⟨⟨⟨⟨?_, ?_⟩, ?_⟩, ?_⟩, ?_⟩ <;> omega

/-- C10: `is_acceptable_username` accepts a name exactly when its byte
list is non-empty, is not exactly "root" (bytes 114,111,111,116), and
every byte is an ASCII lowercase letter a–z (bytes 97–122); hence every
name containing an ASCII digit, an uppercase letter, a dash, or any
non-ASCII byte is rejected. -/
theorem is_acceptable_username_spec :
    ∀ bs : List Nat,
      is_acceptable_username bs = true ↔
        bs ≠ [] ∧ bs ≠ [114, 111, 111, 116] ∧ ∀ c ∈ bs, 97 ≤ c ∧ c ≤ 122 :=
  username_accept_iff

/-- C9: `is_acceptable_username` rejects every name whose ASCII
case-folding is "root" (so "root" is rejected regardless of case
collisions), and rejects every name containing the byte of '/', the
byte of ':', or an ASCII whitespace byte. -/
theorem is_acceptable_username_rejections :
    ∀ bs : List Nat,
      (bs.map to_ascii_lowercase = [114, 111, 111, 116] →
        is_acceptable_username bs = false) ∧
      (47 ∈ bs → is_acceptable_username bs = false) ∧
      (58 ∈ bs → is_acceptable_username bs = false) ∧
      (∀ c ∈ bs, u_is_ascii_whitespace c = true →
        is_acceptable_username bs = false) := by
  intro bs
  refine ⟨?_, ?_, ?_, ?_⟩
  · intro hmap
    rw [Bool.eq_false_iff]
    intro hacc
    obtain ⟨-, hnroot, hall⟩ := (username_accept_iff bs).mp hacc
    apply hnroot
    have hfix : ∀ c ∈ bs, to_ascii_lowercase c = c := by
      intro c hc
      have := hall c hc
      simp only [to_ascii_lowercase]
      rw [if_neg (by omega)]
    calc bs = bs.map to_ascii_lowercase := by
              rw [List.map_congr_left hfix, List.map_id']
         _ = [114, 111, 111, 116] := hmap
  · intro hmem
    rw [Bool.eq_false_iff]
    intro hacc
    have := ((username_accept_iff bs).mp hacc).2.2 47 hmem
    omega
  · intro hmem
    rw [Bool.eq_false_iff]
    intro hacc
    have := ((username_accept_iff bs).mp hacc).2.2 58 hmem
    omega
  · intro c hc hws
    rw [Bool.eq_false_iff]
    intro hacc
    have := ((username_accept_iff bs).mp hacc).2.2 c hc
    simp only [u_is_ascii_whitespace, Bool.or_eq_true, beq_iff_eq] at hws
    rcases hws with (((rfl | rfl) | rfl) | rfl) | rfl <;> omega

end Aoscdk
